import Mathlib

/-!
Shallow embedding of `src/cdk/bakery_stack.py` (`BakeryStack.__init__`).

The Python constructor builds, in a fixed order, the resource graph of a
"bakery" stack: two S3 buckets, a VPC with up to three public subnets, two
security groups, an ECS cluster, an ECS task role with inline and managed
policies, a Fargate task definition with one container, a load-balanced
Fargate service, a task-execution role, and a list of CloudFormation
outputs (exports).

Every construct id in the source is an f-string `"<kind>-{identifier}"`;
this is embedded as `name kind identifier`.  Values that CDK resolves only
at deploy time (ARNs, bucket names, security-group ids, subnet ids) are
unresolved tokens at synthesis time; they are embedded as the `Token`
inductive, tagged by the construct id they refer to.

The two reads of `os.environ` (`RUNNER_TOKEN_SECRET_ARN` at the secret
construct, `PREFECT_AGENT_LABELS` inside the `add_container` call) happen
mid-constructor; an absent variable raises `KeyError` there.  `assemble`
therefore returns the list of construction events that happened up to the
failure point, paired with `none` on failure or `some` of the finished
stack record on success.
-/

namespace BakeryCdk

/-- Embeds the f-string naming pattern `f"<kind>-{identifier}"` used for
every construct id and export name in `BakeryStack.__init__`. -/
def name (kind identifier : String) : String :=
  kind ++ "-" ++ identifier

/-- A deploy-time value, unresolved at synthesis time, tagged by the
construct it refers to: `.arn c` is `c.role_arn`/`c.cluster_arn`,
`.bucketName c` is `c.bucket_name`, `.groupId c` is `c.security_group_id`,
`.vpcId c` is `c.vpc_id`, `.subnetId c` is `c.subnet_id`, and `.lit s` is
the plain string `s`. -/
inductive Token where
  | lit (s : String)
  | arn (cid : String)
  | bucketName (cid : String)
  | groupId (cid : String)
  | vpcId (cid : String)
  | subnetId (cid : String)
deriving DecidableEq

/-- The required environment inputs read by `os.environ[...]`; `none`
models an absent variable (Python `KeyError`). -/
structure Env where
  runnerTokenSecretArn : Option String
  prefectAgentLabels : Option String
deriving DecidableEq

/-- An `aws_iam.PolicyStatement(resources=..., actions=...)`. -/
structure PolicyStatement where
  resources : List String
  actions : List String
deriving DecidableEq

/-- An `aws_iam.Role` together with the statements, managed policies and
bucket read-write grants attached to it during assembly. -/
structure RoleData where
  constructId : String
  assumedBy : String
  statements : List PolicyStatement
  managedPolicies : List String
  readWriteGrants : List String
deriving DecidableEq

/-- `aws_ecs.Secret.from_secrets_manager(secret=..., field=...)`: a
reference to an externally stored secret, holding only the ARN and the
field name, never the secret value. -/
structure SecretRef where
  secretArn : String
  fieldName : String
deriving DecidableEq

/-- The container added by `add_container` on the task definition. -/
structure ContainerDef where
  constructId : String
  image : String
  portMappings : List (Nat × Nat)
  logStream : String
  environment : List (String × String)
  secrets : List (String × SecretRef)
  command : List Token
deriving DecidableEq

/-- An `aws_ecs.FargateTaskDefinition` with its containers. -/
structure TaskDefData where
  constructId : String
  cpu : Nat
  memoryLimitMiB : Nat
  taskRole : String
  executionRole : Option String
  containers : List ContainerDef
deriving DecidableEq

/-- The `ApplicationLoadBalancedFargateService` and its configured
health check. -/
structure ServiceData where
  constructId : String
  assignPublicIp : Bool
  desiredCount : Nat
  taskDefinition : String
  cluster : String
  securityGroups : List String
  healthCheckPath : String
  healthCheckPort : String
deriving DecidableEq

/-- An `aws_ec2.SecurityGroup`; each ingress rule is a pair of the source
security group's construct id and a port range. -/
structure SecurityGroupData where
  constructId : String
  vpc : String
  allowAllOutbound : Bool
  ingressRules : List (String × String)
deriving DecidableEq

/-- The `aws_ec2.Vpc` with its public subnets. -/
structure VpcData where
  constructId : String
  cidr : String
  enableDnsHostnames : Bool
  enableDnsSupport : Bool
  natGateways : Nat
  maxAzs : Nat
  publicSubnets : List String
deriving DecidableEq

/-- A `core.CfnOutput(id=..., export_name=..., value=...)`. -/
structure ExportEntry where
  constructId : String
  exportName : String
  value : Token
deriving DecidableEq

/-- The fully assembled stack record. -/
structure BakeryStack where
  bucket : String
  cacheBucket : String
  vpc : VpcData
  prefectSecurityGroup : SecurityGroupData
  daskSecurityGroup : SecurityGroupData
  cluster : String
  ecsTaskRole : RoleData
  taskDefinition : TaskDefData
  service : ServiceData
  ecsTaskExecutionRole : RoleData
  exports : List ExportEntry
deriving DecidableEq

/-- One observable step of the constructor, in source order. -/
inductive Event where
  | declare (kind cid : String)
  | addIngress (target source port : String)
  | addToPolicy (role : String) (stmt : PolicyStatement)
  | grantReadWrite (bucket role : String)
  | addManagedPolicy (role policy : String)
  | addContainer (taskDef cid : String)
  | configureHealthCheck (service path port : String)
  | output (cid exportName : String) (value : Token)
deriving DecidableEq

/-- `aws_ec2.Port.all_traffic()`. -/
def allTraffic : String := "all-traffic"

/-- The naming kind of the indexed public-subnet output,
`f"prefect-public-subnet-{idx}-output"`. -/
def subnetKind (idx : Nat) : String :=
  "prefect-public-subnet-" ++ toString idx ++ "-output"

/-- `BakeryStack.__init__`, embedded.  `region`/`account` stand for
`self.region`/`self.account`; `availableAzs` is the number of availability
zones of the target environment (the VPC uses `min availableAzs 3` of
them, per `max_azs=3`).  Returns the trace of construction events up to
completion or failure, and the finished stack on success. -/
def assemble (env : Env) (region account : String) (availableAzs : Nat)
    (identifier : String) : List Event × Option BakeryStack :=
  let bucketCid := name "flow-storage-bucket" identifier
  let cacheBucketCid := name "flow-cache-bucket" identifier
  let vpcCid := name "bakery-vpc" identifier
  let publicSubnets := (List.range (min availableAzs 3)).map
    (fun i => vpcCid ++ "/PublicSubnetConfig1-" ++ toString i)
  let vpc : VpcData :=
    { constructId := vpcCid, cidr := "10.0.0.0/16",
      enableDnsHostnames := true, enableDnsSupport := true,
      natGateways := 0, maxAzs := 3, publicSubnets := publicSubnets }
  let prefectSgCid := name "prefect-security-group" identifier
  let daskSgCid := name "dask-security-group" identifier
  let prefectSg : SecurityGroupData :=
    { constructId := prefectSgCid, vpc := vpcCid, allowAllOutbound := true,
      ingressRules := [(prefectSgCid, allTraffic)] }
  let daskSg : SecurityGroupData :=
    { constructId := daskSgCid, vpc := vpcCid, allowAllOutbound := true,
      ingressRules := [(daskSgCid, allTraffic), (prefectSgCid, allTraffic)] }
  let clusterCid := name "bakery-cluster" identifier
  let taskRoleCid := name "prefect-ecs-task-role" identifier
  let stmt1 : PolicyStatement :=
    { resources := ["*"], actions := ["iam:ListRoleTags"] }
  let stmt2 : PolicyStatement :=
    { resources :=
        ["arn:aws:logs:" ++ region ++ ":" ++ account ++ ":log-group:dask-ecs*"],
      actions := ["logs:GetLogEvents"] }
  let ecsTaskRole : RoleData :=
    { constructId := taskRoleCid, assumedBy := "ecs-tasks.amazonaws.com",
      statements := [stmt1, stmt2],
      managedPolicies := ["AmazonECS_FullAccess"],
      readWriteGrants := [bucketCid, cacheBucketCid] }
  let taskDefCid := name "prefect-ecs-agent-task-definition" identifier
  let ev0 : List Event :=
    [.declare "s3-bucket" bucketCid,
     .declare "s3-bucket" cacheBucketCid,
     .declare "vpc" vpcCid,
     .declare "security-group" prefectSgCid,
     .addIngress prefectSgCid prefectSgCid allTraffic,
     .declare "security-group" daskSgCid,
     .addIngress daskSgCid daskSgCid allTraffic,
     .addIngress daskSgCid prefectSgCid allTraffic,
     .declare "cluster" clusterCid,
     .declare "role" taskRoleCid,
     .addToPolicy taskRoleCid stmt1,
     .addToPolicy taskRoleCid stmt2,
     .grantReadWrite bucketCid taskRoleCid,
     .grantReadWrite cacheBucketCid taskRoleCid,
     .addManagedPolicy taskRoleCid "AmazonECS_FullAccess",
     .declare "task-definition" taskDefCid]
  match env.runnerTokenSecretArn with
  | none => (ev0, none)
  | some secretArn =>
    let secretCid := name "prefect-cloud-runner-token" identifier
    let runnerTokenSecret : SecretRef :=
      { secretArn := secretArn, fieldName := "RUNNER_TOKEN" }
    let repoCid := name "pangeo-forge-aws-bakery-agent-repo" identifier
    let ev1 := ev0 ++ [.declare "secret" secretCid, .declare "ecr-repo" repoCid]
    match env.prefectAgentLabels with
    | none => (ev1, none)
    | some labels =>
      let containerCid := name "prefect-ecs-agent-task-container" identifier
      let container : ContainerDef :=
        { constructId := containerCid,
          image := "pangeo-forge-aws-bakery-agent",
          portMappings := [(8080, 8080)],
          logStream := "ecs-agent",
          environment := [("PREFECT__CLOUD__AGENT__LABELS", labels)],
          secrets := [("PREFECT__CLOUD__AGENT__AUTH_TOKEN", runnerTokenSecret)],
          command := [.lit "--cluster", .arn clusterCid,
                      .lit "--task-role-arn", .arn taskRoleCid] }
      let taskDef : TaskDefData :=
        { constructId := taskDefCid, cpu := 512, memoryLimitMiB := 2048,
          taskRole := taskRoleCid, executionRole := none,
          containers := [container] }
      let serviceCid := name "prefect-ecs-agent-service" identifier
      let service : ServiceData :=
        { constructId := serviceCid, assignPublicIp := true,
          desiredCount := 1, taskDefinition := taskDefCid,
          cluster := clusterCid, securityGroups := [prefectSgCid],
          healthCheckPath := "/api/health", healthCheckPort := "8080" }
      let execRoleCid := name "prefect-ecs-task-execution-role" identifier
      let execRole : RoleData :=
        { constructId := execRoleCid, assumedBy := "ecs-tasks.amazonaws.com",
          statements := [],
          managedPolicies := ["service-role/AmazonECSTaskExecutionRolePolicy"],
          readWriteGrants := [] }
      let fixedExports : List ExportEntry :=
        [{ constructId := name "prefect-task-role-arn-output" identifier,
           exportName := name "prefect-task-role-arn-output" identifier,
           value := .arn taskRoleCid },
         { constructId := name "prefect-cluster-arn-output" identifier,
           exportName := name "prefect-cluster-arn-output" identifier,
           value := .arn clusterCid },
         { constructId := name "prefect-storage-bucket-name-output" identifier,
           exportName := name "prefect-storage-bucket-name-output" identifier,
           value := .bucketName bucketCid },
         { constructId := name "prefect-cache-bucket-name-output" identifier,
           exportName := name "prefect-cache-bucket-name-output" identifier,
           value := .bucketName cacheBucketCid },
         { constructId := name "prefect-task-execution-role-arn-output" identifier,
           exportName := name "prefect-task-execution-role-arn-output" identifier,
           value := .arn execRoleCid },
         { constructId := name "dask-security-group-output" identifier,
           exportName := name "prefect-dask-security-group-output" identifier,
           value := .groupId daskSgCid },
         { constructId := name "prefect-security-group-output" identifier,
           exportName := name "prefect-prefect-security-group-output" identifier,
           value := .groupId prefectSgCid },
         { constructId := name "prefect-vpc-output" identifier,
           exportName := name "prefect-vpc-output" identifier,
           value := .vpcId vpcCid }]
      let subnetExports : List ExportEntry :=
        publicSubnets.enum.map
          (fun p =>
            { constructId := name (subnetKind p.fst) identifier,
              exportName := name (subnetKind p.fst) identifier,
              value := .subnetId p.snd })
      let exports := fixedExports ++ subnetExports
      let ev2 := ev1 ++
        [.addContainer taskDefCid containerCid,
         .declare "service" serviceCid,
         .configureHealthCheck serviceCid "/api/health" "8080",
         .declare "role" execRoleCid] ++
        exports.map (fun e => .output e.constructId e.exportName e.value)
      (ev2,
       some { bucket := bucketCid, cacheBucket := cacheBucketCid, vpc := vpc,
              prefectSecurityGroup := prefectSg, daskSecurityGroup := daskSg,
              cluster := clusterCid, ecsTaskRole := ecsTaskRole,
              taskDefinition := taskDef, service := service,
              ecsTaskExecutionRole := execRole, exports := exports })

/-- The event trace of an assembly (complete on success, partial on
failure). -/
def assembleTrace (env : Env) (region account : String) (availableAzs : Nat)
    (identifier : String) : List Event :=
  (assemble env region account availableAzs identifier).fst

/-- The assembled stack, or `none` when a required input was absent. -/
def assembleStack (env : Env) (region account : String) (availableAzs : Nat)
    (identifier : String) : Option BakeryStack :=
  (assemble env region account availableAzs identifier).snd

/-- Whether an event is the declaration of a CloudFormation output. -/
def isOutput : Event → Bool
  | .declare _ _ => false
  | .addIngress _ _ _ => false
  | .addToPolicy _ _ => false
  | .grantReadWrite _ _ => false
  | .addManagedPolicy _ _ => false
  | .addContainer _ _ => false
  | .configureHealthCheck _ _ _ => false
  | .output _ _ _ => true

/-- All resource names produced by a trace: every declared construct id,
every output's construct id and its export name. -/
def declaredNames : List Event → List String
  | [] => []
  | .declare _ cid :: es => cid :: declaredNames es
  | .addIngress _ _ _ :: es => declaredNames es
  | .addToPolicy _ _ :: es => declaredNames es
  | .grantReadWrite _ _ :: es => declaredNames es
  | .addManagedPolicy _ _ :: es => declaredNames es
  | .addContainer _ cid :: es => cid :: declaredNames es
  | .configureHealthCheck _ _ _ :: es => declaredNames es
  | .output cid exportName _ :: es => cid :: exportName :: declaredNames es

/-- `a` is a suffix of `b` as strings. -/
def strSuffix (a b : String) : Prop := a.data <:+ b.data

instance (a b : String) : Decidable (strSuffix a b) := by
  unfold strSuffix; infer_instance

/-! ### Helper lemmas about names and traces -/

lemma str_append_right_cancel {p q s : String} (h : p ++ s = q ++ s) : p = q := by
  apply String.ext
  have hd : p.data ++ s.data = q.data ++ s.data := by
    simpa [String.data_append] using congrArg String.data h
  exact List.append_cancel_right hd

lemma name_eq_append (k identifier : String) :
    name k identifier = (k ++ "-") ++ identifier :=
  rfl

lemma name_ne_of_kind_ne {k1 k2 : String} (h : k1 ≠ k2) (identifier : String) :
    name k1 identifier ≠ name k2 identifier := by
  intro he
  have h2 : (k1 ++ "-") ++ identifier = (k2 ++ "-") ++ identifier := he
  exact h (str_append_right_cancel (str_append_right_cancel h2))

lemma suffix_or_suffix_of_append_eq {p q a b : String}
    (h : p ++ a = q ++ b) : strSuffix a b ∨ strSuffix b a := by
  have hd : p.data ++ a.data = q.data ++ b.data := by
    simpa [String.data_append] using congrArg String.data h
  rcases List.append_eq_append_iff.mp hd with ⟨m, _, h2⟩ | ⟨m, _, h2⟩
  · right; exact ⟨m, h2.symm⟩
  · left; exact ⟨m, h2.symm⟩

lemma name_collision_suffix {k1 k2 a b : String} (h : name k1 a = name k2 b) :
    strSuffix a b ∨ strSuffix b a := by
  have h2 : (k1 ++ "-") ++ a = (k2 ++ "-") ++ b := h
  exact suffix_or_suffix_of_append_eq h2

lemma declaredNames_append (l1 l2 : List Event) :
    declaredNames (l1 ++ l2) = declaredNames l1 ++ declaredNames l2 := by
  induction l1 with
  | nil => rfl
  | cons e es ih => cases e <;> simp [declaredNames, ih]

lemma mem_subnet_outputs {identifier n : String} (l : List (Nat × String))
    (h : n ∈ declaredNames (l.map (fun p =>
      Event.output (name (subnetKind p.fst) identifier)
        (name (subnetKind p.fst) identifier) (Token.subnetId p.snd)))) :
    ∃ k, n = name k identifier := by
  induction l with
  | nil => simp [declaredNames] at h
  | cons p ps ih =>
    rw [List.map_cons] at h
    simp only [declaredNames, List.mem_cons] at h
    rcases h with h | h | h
    · exact ⟨_, h⟩
    · exact ⟨_, h⟩
    · exact ih h

lemma mem_trace_names {arn lbl region account : String} {azs : Nat}
    {identifier n : String}
    (h : n ∈ declaredNames
      (assembleTrace ⟨some arn, some lbl⟩ region account azs identifier)) :
    ∃ k, n = name k identifier := by
  simp only [assembleTrace, assemble, declaredNames_append, declaredNames,
    List.map_append, List.map_map, List.map_cons, List.map_nil, Function.comp,
    List.mem_append, List.mem_cons, List.append_assoc, List.cons_append,
    List.nil_append, List.mem_singleton] at h
  rcases h with h | h | h | h | h | h | h | h | h | h | h | h | h | h | h | h |
    h | h | h | h | h | h | h | h | h | h | h | h | h | h
  all_goals try exact ⟨_, h⟩
  simp only [List.append_eq, List.nil_append, List.map_map, Function.comp] at h
  exact mem_subnet_outputs _ h

/-! ### Claim C2 -/

/-- Claim C2 is false as stated: the identifiers `"output-x"` and `"x"` are
distinct, yet the name sets of the two assemblies intersect — the agent
security group of identifier `"output-x"` and the agent-security-group
output construct of identifier `"x"` are both named
`"prefect-security-group-output-x"`. -/
theorem C2_counterexample :
    ("output-x" : String) ≠ "x" ∧
    "prefect-security-group-output-x" ∈
      declaredNames (assembleTrace ⟨some "arn", some "lbl"⟩
        "us-west-2" "012345678901" 3 "output-x") ∧
    "prefect-security-group-output-x" ∈
      declaredNames (assembleTrace ⟨some "arn", some "lbl"⟩
        "us-west-2" "012345678901" 3 "x") :=
  ⟨by decide, by decide, by decide⟩

/-- Claim C2, amended: for any two identifiers such that neither is a
string suffix of the other (in particular they are distinct), the set of
resource names and export names produced by assembling with the first is
disjoint from the set produced with the second, for any environments and
any number of availability zones. -/
theorem C2_names_disjoint_of_not_suffix
    (arn1 lbl1 region1 account1 arn2 lbl2 region2 account2 : String)
    (azs1 azs2 : Nat) (a b n : String)
    (hab : ¬ strSuffix a b) (hba : ¬ strSuffix b a)
    (hn : n ∈ declaredNames
      (assembleTrace ⟨some arn1, some lbl1⟩ region1 account1 azs1 a)) :
    n ∉ declaredNames
      (assembleTrace ⟨some arn2, some lbl2⟩ region2 account2 azs2 b) := by
  intro hm
  obtain ⟨k1, rfl⟩ := mem_trace_names hn
  obtain ⟨k2, he⟩ := mem_trace_names hm
  rcases name_collision_suffix he with hs | hs
  · exact hab hs
  · exact hba hs

/-- Witness for the amended claim C2, at the concrete identifiers
`"aa"` and `"bb"`. -/
theorem C2_names_disjoint_of_not_suffix_witness :
    "flow-storage-bucket-aa" ∉ declaredNames
      (assembleTrace ⟨some "arn", some "lbl"⟩ "us-west-2" "012345678901" 3 "bb") :=
  C2_names_disjoint_of_not_suffix "arn" "lbl" "us-west-2" "012345678901"
    "arn" "lbl" "us-west-2" "012345678901" 3 3 "aa" "bb" "flow-storage-bucket-aa"
    (by decide) (by decide) (by decide)

/-! ### Claim C8 -/

/-- Claim C8 is false as stated: the naming function is not injective in
the pair (kind, identifier) — the kind `"prefect-security-group"` with
identifier `"output-x"` and the kind `"prefect-security-group-output"`
with identifier `"x"` (both kinds actually used by the stack) yield the
same name, though the pairs differ. -/
theorem C8_counterexample :
    name "prefect-security-group" "output-x" =
      name "prefect-security-group-output" "x" ∧
    ("prefect-security-group", "output-x") ≠
      ("prefect-security-group-output", "x") :=
  ⟨by decide, by decide⟩

/-- Claim C8, amended: the naming function is pure and deterministic, and
for any fixed resource kind it is injective in the identifier; injectivity
in the full pair (kind, identifier) fails when one kind is an extension of
another. -/
theorem C8_name_injective_per_kind (k a b : String)
    (h : name k a = name k b) : a = b := by
  have h2 : (k ++ "-") ++ a = (k ++ "-") ++ b := h
  apply String.ext
  have hd : (k ++ "-").data ++ a.data = (k ++ "-").data ++ b.data := by
    simpa [String.data_append] using congrArg String.data h2
  exact List.append_cancel_left hd

/-- Witness for the amended claim C8 at a concrete kind and identifier. -/
theorem C8_name_injective_per_kind_witness : ("test1" : String) = "test1" :=
  C8_name_injective_per_kind "flow-storage-bucket" "test1" "test1" rfl

/-! ### Claim C1 -/

/-- Claim C1 is false as stated: with the secret ARN absent, assembly
fails, yet the flow-storage bucket was already declared — a partial
topology is produced before the failure. -/
theorem C1_counterexample :
    assembleStack ⟨none, some "dev"⟩ "us-west-2" "012345678901" 3 "test1" = none ∧
    Event.declare "s3-bucket" (name "flow-storage-bucket" "test1") ∈
      assembleTrace ⟨none, some "dev"⟩ "us-west-2" "012345678901" 3 "test1" :=
  ⟨rfl, by decide⟩

/-- Claim C1, amended: if a required environment input (the secret ARN or
the agent label string) is absent, assembly fails — no stack record is
produced and no export is ever declared — but the failure happens only
after partial construction: the buckets, network, security groups,
cluster, execution role and task definition have already been declared
(the service has not). -/
theorem C1_missing_input_fails_after_partial_graph
    (env : Env) (region account : String) (azs : Nat) (identifier : String)
    (h : env.runnerTokenSecretArn = none ∨ env.prefectAgentLabels = none) :
    assembleStack env region account azs identifier = none ∧
    Event.declare "s3-bucket" (name "flow-storage-bucket" identifier) ∈
      assembleTrace env region account azs identifier ∧
    Event.declare "task-definition"
        (name "prefect-ecs-agent-task-definition" identifier) ∈
      assembleTrace env region account azs identifier ∧
    (assembleTrace env region account azs identifier).countP
      (fun e => isOutput e) = 0 ∧
    Event.declare "service" (name "prefect-ecs-agent-service" identifier) ∉
      assembleTrace env region account azs identifier := by
  obtain ⟨o1, o2⟩ := env
  cases o1 <;> cases o2
  case some.some => simp at h
  all_goals
    refine ⟨rfl, ?_, ?_, ?_, ?_⟩ <;>
      simp [assembleTrace, assemble, isOutput, List.countP_cons, List.countP_nil]

/-- Witness for the amended claim C1 with both required inputs absent. -/
theorem C1_missing_input_witness :
    assembleStack ⟨none, none⟩ "us-west-2" "012345678901" 3 "test1" = none ∧
    Event.declare "s3-bucket" (name "flow-storage-bucket" "test1") ∈
      assembleTrace ⟨none, none⟩ "us-west-2" "012345678901" 3 "test1" ∧
    Event.declare "task-definition"
        (name "prefect-ecs-agent-task-definition" "test1") ∈
      assembleTrace ⟨none, none⟩ "us-west-2" "012345678901" 3 "test1" ∧
    (assembleTrace ⟨none, none⟩ "us-west-2" "012345678901" 3 "test1").countP
      (fun e => isOutput e) = 0 ∧
    Event.declare "service" (name "prefect-ecs-agent-service" "test1") ∉
      assembleTrace ⟨none, none⟩ "us-west-2" "012345678901" 3 "test1" :=
  C1_missing_input_fails_after_partial_graph ⟨none, none⟩
    "us-west-2" "012345678901" 3 "test1" (Or.inl rfl)

/-! ### Claim C3 -/

/-- Claim C3: in every successful assembly the worker (dask) security
group's ingress rules contain a rule whose source is the agent (prefect)
security group and a self-referential allow-all rule, the agent group has
its own self-referential allow-all rule, and in the construction trace the
agent group is declared strictly before the cross-group rule is added. -/
theorem C3_security_group_rules (arn lbl region account : String) (azs : Nat)
    (identifier : String) :
    ∃ st, assembleStack ⟨some arn, some lbl⟩ region account azs identifier
        = some st ∧
      (name "prefect-security-group" identifier, allTraffic) ∈
        st.daskSecurityGroup.ingressRules ∧
      (name "dask-security-group" identifier, allTraffic) ∈
        st.daskSecurityGroup.ingressRules ∧
      (name "prefect-security-group" identifier, allTraffic) ∈
        st.prefectSecurityGroup.ingressRules ∧
      ∃ l1 l2 l3,
        assembleTrace ⟨some arn, some lbl⟩ region account azs identifier =
          l1 ++ Event.declare "security-group"
              (name "prefect-security-group" identifier) ::
            (l2 ++ Event.addIngress (name "dask-security-group" identifier)
              (name "prefect-security-group" identifier) allTraffic :: l3) := by
  refine ⟨_, rfl, ?_, ?_, ?_, ?_⟩
  · simp [assemble]
  · simp [assemble]
  · simp [assemble]
  · refine ⟨[Event.declare "s3-bucket" (name "flow-storage-bucket" identifier),
       Event.declare "s3-bucket" (name "flow-cache-bucket" identifier),
       Event.declare "vpc" (name "bakery-vpc" identifier)],
      [Event.addIngress (name "prefect-security-group" identifier)
         (name "prefect-security-group" identifier) allTraffic,
       Event.declare "security-group" (name "dask-security-group" identifier),
       Event.addIngress (name "dask-security-group" identifier)
         (name "dask-security-group" identifier) allTraffic],
      (assembleTrace ⟨some arn, some lbl⟩ region account azs identifier).drop 8,
      ?_⟩
    simp [assembleTrace, assemble]

/-! ### Claim C4 -/

/-- Claim C4: in every successful assembly the execution role (the role
the agent tasks run as) has read-write grants on exactly the data bucket
and the cache bucket, carries the inline statement allowing
`iam:ListRoleTags` on all resources and the inline statement allowing
`logs:GetLogEvents` on the `dask-ecs` log-group name pattern, and has the
managed `AmazonECS_FullAccess` policy attached. -/
theorem C4_execution_role_grants (arn lbl region account : String) (azs : Nat)
    (identifier : String) :
    ∃ st, assembleStack ⟨some arn, some lbl⟩ region account azs identifier
        = some st ∧
      st.ecsTaskRole.readWriteGrants =
        [name "flow-storage-bucket" identifier,
         name "flow-cache-bucket" identifier] ∧
      PolicyStatement.mk ["*"] ["iam:ListRoleTags"] ∈
        st.ecsTaskRole.statements ∧
      PolicyStatement.mk
          ["arn:aws:logs:" ++ region ++ ":" ++ account ++ ":log-group:dask-ecs*"]
          ["logs:GetLogEvents"] ∈
        st.ecsTaskRole.statements ∧
      "AmazonECS_FullAccess" ∈ st.ecsTaskRole.managedPolicies := by
  refine ⟨_, rfl, rfl, ?_, ?_, ?_⟩ <;> simp [assemble]

/-! ### Claim C5 -/

/-- Claim C5: in every successful assembly (the provided secret ARN being
arbitrary), the task definition has exactly one container, and that
container's secret bindings are exactly one entry binding the container
environment variable `PREFECT__CLOUD__AGENT__AUTH_TOKEN` to the reference
built from the provided ARN with field `RUNNER_TOKEN`; the reference holds
only the ARN and the field name, never a secret value. -/
theorem C5_secret_binding (arn lbl region account : String) (azs : Nat)
    (identifier : String) :
    ∃ st, assembleStack ⟨some arn, some lbl⟩ region account azs identifier
        = some st ∧
      ∃ c, st.taskDefinition.containers = [c] ∧
        c.secrets = [("PREFECT__CLOUD__AGENT__AUTH_TOKEN",
          SecretRef.mk arn "RUNNER_TOKEN")] :=
  ⟨_, rfl, _, rfl, rfl⟩

/-! ### Claim C6 -/

/-- Claim C6: when at least three availability zones are available (so
three are used, per `max_azs=3`), the export map of a successful assembly
is exactly one export for each of: execution-role ARN, cluster ARN, data
bucket name, cache bucket name, task-execution-role ARN, worker
security-group id, agent security-group id, network id, and one export
per public subnet — exactly three subnet exports — and every export name
is `name kind identifier` for its resource kind. -/
theorem C6_export_map (arn lbl region account : String) (azs : Nat)
    (identifier : String) (h : 3 ≤ azs) :
    ∃ st, assembleStack ⟨some arn, some lbl⟩ region account azs identifier
        = some st ∧
      st.exports =
        [⟨name "prefect-task-role-arn-output" identifier,
          name "prefect-task-role-arn-output" identifier,
          Token.arn (name "prefect-ecs-task-role" identifier)⟩,
         ⟨name "prefect-cluster-arn-output" identifier,
          name "prefect-cluster-arn-output" identifier,
          Token.arn (name "bakery-cluster" identifier)⟩,
         ⟨name "prefect-storage-bucket-name-output" identifier,
          name "prefect-storage-bucket-name-output" identifier,
          Token.bucketName (name "flow-storage-bucket" identifier)⟩,
         ⟨name "prefect-cache-bucket-name-output" identifier,
          name "prefect-cache-bucket-name-output" identifier,
          Token.bucketName (name "flow-cache-bucket" identifier)⟩,
         ⟨name "prefect-task-execution-role-arn-output" identifier,
          name "prefect-task-execution-role-arn-output" identifier,
          Token.arn (name "prefect-ecs-task-execution-role" identifier)⟩,
         ⟨name "dask-security-group-output" identifier,
          name "prefect-dask-security-group-output" identifier,
          Token.groupId (name "dask-security-group" identifier)⟩,
         ⟨name "prefect-security-group-output" identifier,
          name "prefect-prefect-security-group-output" identifier,
          Token.groupId (name "prefect-security-group" identifier)⟩,
         ⟨name "prefect-vpc-output" identifier,
          name "prefect-vpc-output" identifier,
          Token.vpcId (name "bakery-vpc" identifier)⟩,
         ⟨name (subnetKind 0) identifier, name (subnetKind 0) identifier,
          Token.subnetId (name "bakery-vpc" identifier ++
            "/PublicSubnetConfig1-" ++ toString 0)⟩,
         ⟨name (subnetKind 1) identifier, name (subnetKind 1) identifier,
          Token.subnetId (name "bakery-vpc" identifier ++
            "/PublicSubnetConfig1-" ++ toString 1)⟩,
         ⟨name (subnetKind 2) identifier, name (subnetKind 2) identifier,
          Token.subnetId (name "bakery-vpc" identifier ++
            "/PublicSubnetConfig1-" ++ toString 2)⟩] := by
  refine ⟨_, rfl, ?_⟩
  have h3 : min azs 3 = 3 := Nat.min_eq_right h
  have hr : List.range 3 = [0, 1, 2] := rfl
  simp [assemble, h3, hr, List.enum, List.enumFrom]

/-- Witness for claim C6 at three availability zones and identifier
`"test1"`. -/
theorem C6_export_map_witness :
    ∃ st, assembleStack ⟨some "arn", some "dev"⟩ "us-west-2" "012345678901"
        3 "test1" = some st ∧
      st.exports =
        [⟨"prefect-task-role-arn-output-test1",
          "prefect-task-role-arn-output-test1",
          Token.arn "prefect-ecs-task-role-test1"⟩,
         ⟨"prefect-cluster-arn-output-test1",
          "prefect-cluster-arn-output-test1",
          Token.arn "bakery-cluster-test1"⟩,
         ⟨"prefect-storage-bucket-name-output-test1",
          "prefect-storage-bucket-name-output-test1",
          Token.bucketName "flow-storage-bucket-test1"⟩,
         ⟨"prefect-cache-bucket-name-output-test1",
          "prefect-cache-bucket-name-output-test1",
          Token.bucketName "flow-cache-bucket-test1"⟩,
         ⟨"prefect-task-execution-role-arn-output-test1",
          "prefect-task-execution-role-arn-output-test1",
          Token.arn "prefect-ecs-task-execution-role-test1"⟩,
         ⟨"dask-security-group-output-test1",
          "prefect-dask-security-group-output-test1",
          Token.groupId "dask-security-group-test1"⟩,
         ⟨"prefect-security-group-output-test1",
          "prefect-prefect-security-group-output-test1",
          Token.groupId "prefect-security-group-test1"⟩,
         ⟨"prefect-vpc-output-test1",
          "prefect-vpc-output-test1",
          Token.vpcId "bakery-vpc-test1"⟩,
         ⟨"prefect-public-subnet-0-output-test1",
          "prefect-public-subnet-0-output-test1",
          Token.subnetId "bakery-vpc-test1/PublicSubnetConfig1-0"⟩,
         ⟨"prefect-public-subnet-1-output-test1",
          "prefect-public-subnet-1-output-test1",
          Token.subnetId "bakery-vpc-test1/PublicSubnetConfig1-1"⟩,
         ⟨"prefect-public-subnet-2-output-test1",
          "prefect-public-subnet-2-output-test1",
          Token.subnetId "bakery-vpc-test1/PublicSubnetConfig1-2"⟩] :=
  C6_export_map "arn" "dev" "us-west-2" "012345678901" 3 "test1" (by decide)

/-! ### Claim C7 -/

/-- Claim C7: in every successful assembly the task definition has
cpu 512 and memory 2048 MiB, is owned by the execution role, its single
container maps container port 8080 to host port 8080, and its startup
command embeds the cluster ARN and the execution-role ARN; the service
runs exactly one desired instance of that task definition in the cluster,
is attached to the agent security group, is publicly addressable, its
health check is fixed at path `/api/health` on port `8080`, and in the
construction trace the service is declared only after both the task
definition and the agent security group. -/
theorem C7_task_definition_and_service (arn lbl region account : String)
    (azs : Nat) (identifier : String) :
    ∃ st, assembleStack ⟨some arn, some lbl⟩ region account azs identifier
        = some st ∧
      st.taskDefinition.cpu = 512 ∧
      st.taskDefinition.memoryLimitMiB = 2048 ∧
      st.taskDefinition.taskRole = st.ecsTaskRole.constructId ∧
      (∃ c, st.taskDefinition.containers = [c] ∧
        c.portMappings = [(8080, 8080)] ∧
        Token.arn st.cluster ∈ c.command ∧
        Token.arn st.ecsTaskRole.constructId ∈ c.command) ∧
      st.service.desiredCount = 1 ∧
      st.service.taskDefinition = st.taskDefinition.constructId ∧
      st.service.cluster = st.cluster ∧
      st.service.securityGroups = [st.prefectSecurityGroup.constructId] ∧
      st.service.assignPublicIp = true ∧
      st.service.healthCheckPath = "/api/health" ∧
      st.service.healthCheckPort = "8080" ∧
      (∃ l1 l2 l3,
        assembleTrace ⟨some arn, some lbl⟩ region account azs identifier =
          l1 ++ Event.declare "task-definition"
              (name "prefect-ecs-agent-task-definition" identifier) ::
            (l2 ++ Event.declare "service"
              (name "prefect-ecs-agent-service" identifier) :: l3)) ∧
      (∃ l1 l2 l3,
        assembleTrace ⟨some arn, some lbl⟩ region account azs identifier =
          l1 ++ Event.declare "security-group"
              (name "prefect-security-group" identifier) ::
            (l2 ++ Event.declare "service"
              (name "prefect-ecs-agent-service" identifier) :: l3)) := by
  refine ⟨_, rfl, rfl, rfl, rfl, ⟨_, rfl, rfl, ?_, ?_⟩, rfl, rfl, rfl, rfl,
    rfl, rfl, rfl, ?_, ?_⟩
  · simp [assemble]
  · simp [assemble]
  · refine ⟨(assembleTrace ⟨some arn, some lbl⟩ region account azs
        identifier).take 15,
      [Event.declare "secret" (name "prefect-cloud-runner-token" identifier),
       Event.declare "ecr-repo" (name "pangeo-forge-aws-bakery-agent-repo"
         identifier),
       Event.addContainer (name "prefect-ecs-agent-task-definition" identifier)
         (name "prefect-ecs-agent-task-container" identifier)],
      (assembleTrace ⟨some arn, some lbl⟩ region account azs
        identifier).drop 20, ?_⟩
    simp [assembleTrace, assemble]
  · refine ⟨(assembleTrace ⟨some arn, some lbl⟩ region account azs
        identifier).take 3,
      (assembleTrace ⟨some arn, some lbl⟩ region account azs
        identifier).drop 4 |>.take 15,
      (assembleTrace ⟨some arn, some lbl⟩ region account azs
        identifier).drop 20, ?_⟩
    simp [assembleTrace, assemble]

/-! ### Claim C9 -/

lemma countP_subnet_zero (identifier x : String) (l : List (Nat × String)) :
    (l.map (fun p => ExportEntry.mk (name (subnetKind p.fst) identifier)
      (name (subnetKind p.fst) identifier) (Token.subnetId p.snd))).countP
      (fun e => e.value == Token.arn x) = 0 := by
  induction l with
  | nil => rfl
  | cons p ps ih => simp [List.countP_cons, ih]

/-- Claim C9: in every successful assembly the task-execution role is
declared only after the service; it is not attached to the task definition
(whose execution-role slot is empty and whose task role is a different
role), nor referenced by the service or the container command; its only
use is the task-execution-role-ARN export, which carries its ARN, and it
is the value of exactly one export. -/
theorem C9_task_execution_role_only_exported (arn lbl region account : String)
    (azs : Nat) (identifier : String) :
    ∃ st, assembleStack ⟨some arn, some lbl⟩ region account azs identifier
        = some st ∧
      (∃ l1 l2 l3,
        assembleTrace ⟨some arn, some lbl⟩ region account azs identifier =
          l1 ++ Event.declare "service"
              (name "prefect-ecs-agent-service" identifier) ::
            (l2 ++ Event.declare "role"
              (name "prefect-ecs-task-execution-role" identifier) :: l3)) ∧
      st.taskDefinition.executionRole = none ∧
      st.taskDefinition.taskRole ≠ st.ecsTaskExecutionRole.constructId ∧
      st.service.taskDefinition ≠ st.ecsTaskExecutionRole.constructId ∧
      st.service.cluster ≠ st.ecsTaskExecutionRole.constructId ∧
      st.ecsTaskExecutionRole.constructId ∉ st.service.securityGroups ∧
      (∃ c, st.taskDefinition.containers = [c] ∧
        Token.arn st.ecsTaskExecutionRole.constructId ∉ c.command) ∧
      st.exports.countP
        (fun e => e.value == Token.arn st.ecsTaskExecutionRole.constructId)
        = 1 ∧
      ExportEntry.mk (name "prefect-task-execution-role-arn-output" identifier)
        (name "prefect-task-execution-role-arn-output" identifier)
        (Token.arn (name "prefect-ecs-task-execution-role" identifier)) ∈
        st.exports := by
  have hne1 : name "prefect-ecs-task-role" identifier ≠
      name "prefect-ecs-task-execution-role" identifier :=
    name_ne_of_kind_ne (by decide) identifier
  have hne2 : name "bakery-cluster" identifier ≠
      name "prefect-ecs-task-execution-role" identifier :=
    name_ne_of_kind_ne (by decide) identifier
  have hne3 : name "prefect-ecs-agent-task-definition" identifier ≠
      name "prefect-ecs-task-execution-role" identifier :=
    name_ne_of_kind_ne (by decide) identifier
  have hne4 : name "prefect-security-group" identifier ≠
      name "prefect-ecs-task-execution-role" identifier :=
    name_ne_of_kind_ne (by decide) identifier
  refine ⟨_, rfl, ?_, rfl, hne1, hne3, hne2, ?_, ⟨_, rfl, ?_⟩, ?_, ?_⟩
  · refine ⟨(assembleTrace ⟨some arn, some lbl⟩ region account azs
        identifier).take 19,
      [Event.configureHealthCheck
        (name "prefect-ecs-agent-service" identifier) "/api/health" "8080"],
      (assembleTrace ⟨some arn, some lbl⟩ region account azs
        identifier).drop 22, ?_⟩
    simp [assembleTrace, assemble]
  · simp [assemble, hne4.symm]
  · simp [assemble, hne1.symm, hne2.symm]
  · simp [assemble, List.countP_append, List.countP_cons, countP_subnet_zero,
      hne1, hne2]
  · simp [assemble]

/-! ### Claim C10 -/

lemma filter_subnet_nil (identifier : String) (l : List (Nat × String)) :
    (l.map (fun p => ExportEntry.mk (name (subnetKind p.fst) identifier)
      (name (subnetKind p.fst) identifier) (Token.subnetId p.snd))).filter
      (fun e => ! (e.exportName == e.constructId)) = [] := by
  induction l with
  | nil => rfl
  | cons p ps ih => simp [List.filter_cons, ih]

/-- Claim C10: in every successful assembly, exactly two exports have an
export name different from their construct id — the worker-group output
(construct id `dask-security-group-output-<id>`, export name
`prefect-dask-security-group-output-<id>`) and the agent-group output
(construct id `prefect-security-group-output-<id>`, export name
`prefect-prefect-security-group-output-<id>`, a doubled prefix) — and for
every other export the export name equals the construct id. -/
theorem C10_export_name_vs_construct_id (arn lbl region account : String)
    (azs : Nat) (identifier : String) :
    ∃ st, assembleStack ⟨some arn, some lbl⟩ region account azs identifier
        = some st ∧
      st.exports.filter (fun e => ! (e.exportName == e.constructId)) =
        [ExportEntry.mk (name "dask-security-group-output" identifier)
           (name "prefect-dask-security-group-output" identifier)
           (Token.groupId (name "dask-security-group" identifier)),
         ExportEntry.mk (name "prefect-security-group-output" identifier)
           (name "prefect-prefect-security-group-output" identifier)
           (Token.groupId (name "prefect-security-group" identifier))] ∧
      name "prefect-dask-security-group-output" identifier ≠
        name "dask-security-group-output" identifier ∧
      name "prefect-prefect-security-group-output" identifier ≠
        name "prefect-security-group-output" identifier := by
  have hne1 : name "prefect-dask-security-group-output" identifier ≠
      name "dask-security-group-output" identifier :=
    name_ne_of_kind_ne (by decide) identifier
  have hne2 : name "prefect-prefect-security-group-output" identifier ≠
      name "prefect-security-group-output" identifier :=
    name_ne_of_kind_ne (by decide) identifier
  refine ⟨_, rfl, ?_, hne1, hne2⟩
  simp [assemble, List.filter_append, List.filter_cons, filter_subnet_nil,
    hne1, hne2]

end BakeryCdk
